import Mathlib

/-!
Shallow embedding of the adaptive practice-session engine of
`backend/app/services/practice_service.py` (together with the
recommended-difficulty helper of `backend/app/api/v1/onboarding.py`),
and theorems checking the natural-language specification against it.

Conventions used throughout:
* Python numbers become `Nat`, `Int` and `Rat`.  Float arithmetic is
  modelled exactly over `Rat`; the truncating products `int(count * 0.6)`
  etc. are modelled as `count * 6 / 10` in `Nat` — for the validated
  request range `5 <= question_count <= 30` (schemas/practice.py,
  `Field(ge=5, le=30)`) the double-precision products of these constants
  round to the mathematically exact values, so the truncations agree.
* Database rows become structures and tables become lists; the wall
  clock is passed in explicitly as an integer timestamp.
* `Optional` fields become `Option`; a Python truthiness test on a
  number (for example `if score["avg_time_seconds"]:`) becomes a
  `≠ 0` test, matching CPython semantics for ints and floats.
-/

namespace Prepverse

/-- Session lifecycle states (`SessionStatus` in `schemas/practice.py`). -/
inductive SessionStatus where
  | in_progress
  | completed
  | abandoned
deriving Repr, DecidableEq

/-- A row of the `questions` table (the Question Catalog).  The content
fingerprint `external_id` is modelled as the pair of question text and
options that the Python hashes (`"gen_" + md5(f"{question}{options}")`);
rows that did not come from the generator carry `none`. -/
structure Question where
  id : String
  question : String
  options : List String
  correct_answer : String
  explanation : String
  subject : String
  topic : String
  subtopic : Option String
  difficulty : String
  class_level : Nat
  times_used : Nat
  times_correct : Nat
  external_id : Option (String × List String)
deriving Repr, DecidableEq

/-- A question draft as returned by the Source Adapter
(`gemini_client.generate_questions`). -/
structure Draft where
  question : String
  options : List String
  correct_answer : String
  explanation : String
deriving Repr, DecidableEq

/-- A row of the `concept_scores` table, as read and written by
`PracticeService._update_concept_score`.  The `mastery_score` and
`recommended_difficulty` columns are deliberately not part of this
structure: the Python update path never writes them (see
`recomputeMastery` below). -/
structure ConceptScore where
  user_id : String
  subject : String
  topic : String
  subtopic : Option String
  total_attempts : Nat
  correct_attempts : Nat
  current_streak : Nat
  best_streak : Nat
  easy_attempts : Nat
  easy_correct : Nat
  medium_attempts : Nat
  medium_correct : Nat
  hard_attempts : Nat
  hard_correct : Nat
  avg_time_seconds : Rat
  last_practiced_at : Int
deriving Repr, DecidableEq

/-- The Concept Mastery Tracker update
(`PracticeService._update_concept_score`): `existing` is the row the
`concept_scores` query returned (`none` on a first attempt for the key),
and the result is the row as written back (update or insert). -/
def updateConceptScore (existing : Option ConceptScore)
    (user_id subject topic : String) (subtopic : Option String)
    (difficulty : String) (is_correct : Bool) (time_taken : Nat)
    (now : Int) : ConceptScore :=
  match existing with
  | some score =>
      { score with
        total_attempts := score.total_attempts + 1
        correct_attempts :=
          if is_correct then score.correct_attempts + 1 else score.correct_attempts
        current_streak := if is_correct then score.current_streak + 1 else 0
        best_streak :=
          if is_correct ∧ score.current_streak + 1 > score.best_streak then
            score.current_streak + 1
          else score.best_streak
        easy_attempts :=
          if difficulty = "easy" then score.easy_attempts + 1 else score.easy_attempts
        easy_correct :=
          if difficulty = "easy" ∧ is_correct then score.easy_correct + 1
          else score.easy_correct
        medium_attempts :=
          if difficulty = "medium" then score.medium_attempts + 1
          else score.medium_attempts
        medium_correct :=
          if difficulty = "medium" ∧ is_correct then score.medium_correct + 1
          else score.medium_correct
        hard_attempts :=
          if difficulty ≠ "easy" ∧ difficulty ≠ "medium" then score.hard_attempts + 1
          else score.hard_attempts
        hard_correct :=
          if difficulty ≠ "easy" ∧ difficulty ≠ "medium" ∧ is_correct then
            score.hard_correct + 1
          else score.hard_correct
        avg_time_seconds :=
          if score.avg_time_seconds ≠ 0 then
            (score.avg_time_seconds * (score.total_attempts : Rat) + (time_taken : Rat))
              / ((score.total_attempts : Rat) + 1)
          else (time_taken : Rat)
        last_practiced_at := now }
  | none =>
      { user_id := user_id
        subject := subject
        topic := topic
        subtopic := subtopic
        total_attempts := 1
        correct_attempts := if is_correct then 1 else 0
        current_streak := if is_correct then 1 else 0
        best_streak := if is_correct then 1 else 0
        easy_attempts := if difficulty = "easy" then 1 else 0
        easy_correct := if difficulty = "easy" ∧ is_correct then 1 else 0
        medium_attempts := if difficulty = "medium" then 1 else 0
        medium_correct := if difficulty = "medium" ∧ is_correct then 1 else 0
        hard_attempts := if difficulty = "hard" then 1 else 0
        hard_correct := if difficulty = "hard" ∧ is_correct then 1 else 0
        avg_time_seconds := (time_taken : Rat)
        last_practiced_at := now }

/-- The Adaptive Difficulty Selector
(`PracticeService._get_adaptive_difficulty_distribution`): from the
`mastery_score` values of the matched `concept_scores` rows, produce the
ordered list of difficulty slots for a new session. -/
def adaptiveDistribution (scores : List Rat) (count : Nat) : List String :=
  if scores = [] then
    List.replicate (count / 2) "easy" ++ List.replicate (count - count / 2) "medium"
  else
    let avg_mastery := scores.sum / (scores.length : Rat)
    if avg_mastery < 40 then
      let easy := count * 6 / 10
      let medium := count - easy
      List.replicate easy "easy" ++ List.replicate medium "medium"
    else if avg_mastery < 70 then
      let easy := count * 3 / 10
      let hard := count * 2 / 10
      let medium := count - easy - hard
      List.replicate easy "easy" ++ List.replicate medium "medium"
        ++ List.replicate hard "hard"
    else
      let easy := count * 2 / 10
      let hard := count * 4 / 10
      let medium := count - easy - hard
      List.replicate easy "easy" ++ List.replicate medium "medium"
        ++ List.replicate hard "hard"

/-- Difficulty recommendation from an accuracy percentage
(`_calculate_recommended_difficulty` in `api/v1/onboarding.py`). -/
def calculateRecommendedDifficulty (accuracy : Rat) : String :=
  if accuracy < 40 then "easy"
  else if accuracy < 70 then "medium"
  else "hard"

/-- Modelled from the spec: the Concept Mastery Tracker's recompute of
`mastery_score` and `recommended_difficulty` whenever `total_attempts`
changes (spec section 4.5).  The Python sources read these columns
(`get_concept_mastery`, `_get_adaptive_difficulty_distribution`) and the
onboarding path seeds them, but the code that recomputes them after each
answer is not among the Python sources (it lives on the database side of
this Supabase-backed repository); it is modelled here from the spec's
words: accuracy = correct_attempts/total_attempts × 100, mastery_score =
accuracy, and thresholds <40 → easy, 40–69.999 → medium, ≥70 → hard —
the same thresholds the in-source onboarding helper
`calculateRecommendedDifficulty` applies. -/
def recomputeMastery (correct_attempts total_attempts : Nat) : Rat × String :=
  let accuracy : Rat := (correct_attempts : Rat) / (total_attempts : Rat) * 100
  (accuracy, calculateRecommendedDifficulty accuracy)

/-- First row of an ascending-by-`times_used` ordering: the catalog query
`order("times_used").limit(1)` returns the first question among those with
the least usage (the tie-break is the stable underlying order). -/
def leastUsed : List Question → Option Question
  | [] => none
  | q :: qs =>
      match leastUsed qs with
      | none => some q
      | some m => if m.times_used < q.times_used then some m else some q

/-- Catalog lookup (`PracticeService._get_cached_question`): filter by
class level, subject, difficulty and (when given) topic, drop the excluded
ids, and take the least-used match. -/
def getCachedQuestion (db : List Question) (class_level : Nat)
    (subject : String) (topic : Option String) (difficulty : String)
    (exclude_ids : List String) : Option Question :=
  leastUsed (db.filter fun q =>
    q.class_level == class_level && q.subject == subject
      && q.difficulty == difficulty
      && (match topic with | some t => q.topic == t | none => true)
      && !(exclude_ids.contains q.id))

/-- The cached phase of `_select_questions_for_session`: for each slot of
the difficulty list in order, try a catalog lookup excluding the ids
already picked; a miss skips the slot. -/
def cachedPhase (db : List Question) (class_level : Nat) (subject : String)
    (topic : Option String) : List String → List Question → List Question
  | [], acc => acc
  | diff :: rest, acc =>
      match getCachedQuestion db class_level subject topic diff (acc.map (·.id)) with
      | some q => cachedPhase db class_level subject topic rest (acc ++ [q])
      | none => cachedPhase db class_level subject topic rest acc

/-- Tally a difficulty list into (difficulty, count) pairs in
first-occurrence order (the Python `diff_counts` dict, insertion-ordered). -/
def diffCounts (l : List String) : List (String × Nat) :=
  l.foldl
    (fun acc d =>
      if acc.any (fun p => p.1 == d) then
        acc.map (fun p => if p.1 == d then (p.1, p.2 + 1) else p)
      else acc ++ [(d, 1)])
    []

/-- Question generation and caching
(`PracticeService._generate_and_cache_questions`).  `drafts` stands for
the Source Adapter's response for this difficulty, `insertOk n` says
whether the n-th catalog insert attempted in this run succeeds (a failing
insert models the cache-insert race), and `freshId` supplies the ids the
database — or, on the failure path, `uuid.uuid4()` — would assign.
Returns the questions to use, the updated catalog, and the next fresh-id
index. -/
def generateAndCache (db : List Question) (class_level : Nat)
    (subject topic difficulty : String) (drafts : List Draft)
    (insertOk : Nat → Bool) (freshId : Nat → String) (n0 : Nat) :
    List Question × List Question × Nat :=
  match drafts with
  | [] => ([], db, n0)
  | d :: rest =>
      let fp := (d.question, d.options)
      match db.find? (fun q => q.external_id == some fp) with
      | some existing =>
          let out := generateAndCache db class_level subject topic difficulty
            rest insertOk freshId n0
          (existing :: out.1, out.2)
      | none =>
          let newQ : Question :=
            { id := freshId n0
              question := d.question
              options := d.options
              correct_answer := d.correct_answer
              explanation := d.explanation
              subject := subject
              topic := topic
              subtopic := none
              difficulty := difficulty
              class_level := class_level
              times_used := 0
              times_correct := 0
              external_id := some fp }
          if insertOk n0 then
            let out := generateAndCache (db ++ [newQ]) class_level subject topic
              difficulty rest insertOk freshId (n0 + 1)
            (newQ :: out.1, out.2)
          else
            let out := generateAndCache db class_level subject topic difficulty
              rest insertOk freshId (n0 + 1)
            (newQ :: out.1, out.2)

/-- Question selection for a new session
(`PracticeService._select_questions_for_session`).  `scores` is the list
of mastery scores the concept-score query returned for (user, subject,
topic-if-given), and `gen` is the Source Adapter (difficulty and
requested count to drafts).  Returns the selected questions (truncated to
`count`) and the updated catalog. -/
def selectQuestionsForSession (db : List Question) (scores : List Rat)
    (class_level : Nat) (subject : String) (topic : Option String)
    (difficulty : Option String) (count : Nat)
    (gen : String → Nat → List Draft) (insertOk : Nat → Bool)
    (freshId : Nat → String) : List Question × List Question :=
  let difficulties :=
    match difficulty with
    | some d => List.replicate count d
    | none => adaptiveDistribution scores count
  let questions := cachedPhase db class_level subject topic difficulties []
  let remaining := count - questions.length
  if remaining > 0 then
    let topicName := topic.getD "mixed"
    let counts := diffCounts (difficulties.drop questions.length)
    let out := counts.foldl
      (fun (st : List Question × List Question × Nat) p =>
        let gend := generateAndCache st.2.1 class_level subject topicName p.1
          (gen p.1 p.2) insertOk freshId st.2.2
        (st.1 ++ gend.1, gend.2))
      (questions, db, 0)
    (out.1.take count, out.2.1)
  else (questions.take count, db)

/-- A row of the `practice_sessions` table.  The aggregate columns are
written by `end_session` and are `none` until then. -/
structure Session where
  id : String
  user_id : String
  subject : String
  topic : Option String
  difficulty : Option String
  class_level : Nat
  question_count : Nat
  time_limit_seconds : Option Nat
  status : SessionStatus
  started_at : Int
  ended_at : Option Int
  total_questions : Option Nat
  correct_answers : Option Nat
  wrong_answers : Option Nat
  skipped : Option Nat
  total_time_seconds : Option Int
  avg_time_per_question : Option Rat
  score_percentage : Option Rat
deriving Repr, DecidableEq

/-- A row of `practice_session_questions` joined with its question
(the `select("*, questions(*)")` shape the service works with). -/
structure SessionRow where
  id : String
  question_order : Nat
  difficulty : String
  user_answer : Option String
  is_correct : Option Bool
  time_taken_seconds : Option Nat
  answered_at : Option Int
  question : Question
deriving Repr, DecidableEq

/-- The SessionQuestion rows persisted by `start_session` for a selected
question list: order `i + 1`, difficulty snapshot, answer fields empty.
The database-assigned row ids are modelled as the rendered order. -/
def sessionRowsFor (qs : List Question) : List SessionRow :=
  ((List.range qs.length).zip qs).map fun p =>
    { id := toString (p.1 + 1)
      question_order := p.1 + 1
      difficulty := p.2.difficulty
      user_answer := none
      is_correct := none
      time_taken_seconds := none
      answered_at := none
      question := p.2 }

/-- The `SessionSummary` response model of `schemas/practice.py`. -/
structure SessionSummary where
  session_id : String
  status : SessionStatus
  subject : String
  topic : Option String
  total_questions : Nat
  correct_answers : Nat
  wrong_answers : Nat
  skipped : Nat
  score_percentage : Rat
  total_time_seconds : Int
  avg_time_per_question : Rat
  time_limit_seconds : Option Nat
  easy_correct : Nat
  easy_total : Nat
  medium_correct : Nat
  medium_total : Nat
  hard_correct : Nat
  hard_total : Nat
  weak_topics : List String
  strong_topics : List String
  started_at : Int
  ended_at : Int
deriving Repr, DecidableEq

/-- The `QuestionReview` response model of `schemas/practice.py`. -/
structure QuestionReview where
  question_order : Nat
  question : String
  options : List String
  correct_answer : String
  user_answer : Option String
  is_correct : Option Bool
  explanation : String
  time_taken_seconds : Option Nat
  subject : String
  topic : String
  difficulty : String
deriving Repr, DecidableEq

/-- Rounding to one decimal place (`round(x, 1)`).  Python rounds floats
with ties to even; the comparisons proved here never sit on a tie, and
the idempotence claims only need both calls to round identically. -/
def roundTo1 (x : Rat) : Rat := ((round (10 * x) : Int) : Rat) / 10

/-- Per-topic (correct, total) tallies over the session rows, in
first-occurrence order of the topic (the Python `topic_stats` dict);
an answer counts as correct when `is_correct` is truthy. -/
def topicStats (rows : List SessionRow) : List (String × Nat × Nat) :=
  rows.foldl
    (fun acc r =>
      let t := r.question.topic
      let c : Nat := if r.is_correct == some true then 1 else 0
      if acc.any (fun p => p.1 == t) then
        acc.map (fun p => if p.1 == t then (p.1, p.2.1 + c, p.2.2 + 1) else p)
      else acc ++ [(t, c, 1)])
    []

set_option maxHeartbeats 1000000 in
/-- End a session (`PracticeService.end_session`): recompute every
statistic from the persisted rows, set the terminal status, stamp
`ended_at` with the current time, and build the review list.  Returns
the summary, the review list, and the updated session row. -/
def endSession (sess : Session) (rows : List SessionRow) (abandoned : Bool)
    (now : Int) : SessionSummary × List QuestionReview × Session :=
  let total := rows.length
  let correct := (rows.filter (fun r => r.is_correct == some true)).length
  let wrong := (rows.filter (fun r => r.is_correct == some false)).length
  let skipped := (rows.filter (fun r => r.user_answer == none)).length
  let easy_total := (rows.filter (fun r => r.difficulty == "easy")).length
  let easy_correct := (rows.filter
    (fun r => r.difficulty == "easy" && r.is_correct == some true)).length
  let medium_total := (rows.filter (fun r => r.difficulty == "medium")).length
  let medium_correct := (rows.filter
    (fun r => r.difficulty == "medium" && r.is_correct == some true)).length
  let hard_total := (rows.filter (fun r => r.difficulty == "hard")).length
  let hard_correct := (rows.filter
    (fun r => r.difficulty == "hard" && r.is_correct == some true)).length
  let times := (rows.filterMap (·.time_taken_seconds)).filter (fun t => t != 0)
  let avg_time : Rat :=
    if times = [] then 0
    else ((times.map (fun t => (t : Rat))).sum) / (times.length : Rat)
  let stats := topicStats rows
  let weak_topics := (stats.filter
    (fun p => decide (0 < p.2.2) && decide ((p.2.1 : Rat) / (p.2.2 : Rat) < 1 / 2))).map (·.1)
  let strong_topics := (stats.filter
    (fun p => decide (0 < p.2.2) && decide ((4 : Rat) / 5 ≤ (p.2.1 : Rat) / (p.2.2 : Rat)))).map (·.1)
  let score_pct : Rat := if 0 < total then (correct : Rat) / (total : Rat) * 100 else 0
  let total_time : Int := now - sess.started_at
  let newStatus := if abandoned then SessionStatus.abandoned else SessionStatus.completed
  let updated : Session :=
    { sess with
      status := newStatus
      ended_at := some now
      total_questions := some total
      correct_answers := some correct
      wrong_answers := some wrong
      skipped := some skipped
      total_time_seconds := some total_time
      avg_time_per_question := some avg_time
      score_percentage := some score_pct }
  let summary : SessionSummary :=
    { session_id := sess.id
      status := newStatus
      subject := sess.subject
      topic := sess.topic
      total_questions := total
      correct_answers := correct
      wrong_answers := wrong
      skipped := skipped
      score_percentage := roundTo1 score_pct
      total_time_seconds := total_time
      avg_time_per_question := roundTo1 avg_time
      time_limit_seconds := sess.time_limit_seconds
      easy_correct := easy_correct
      easy_total := easy_total
      medium_correct := medium_correct
      medium_total := medium_total
      hard_correct := hard_correct
      hard_total := hard_total
      weak_topics := weak_topics
      strong_topics := strong_topics
      started_at := sess.started_at
      ended_at := now }
  let reviews : List QuestionReview := rows.map fun r =>
    { question_order := r.question_order
      question := r.question.question
      options := r.question.options
      correct_answer := r.question.correct_answer
      user_answer := r.user_answer
      is_correct := r.is_correct
      explanation := r.question.explanation
      time_taken_seconds := r.time_taken_seconds
      subject := r.question.subject
      topic := r.question.topic
      difficulty := r.question.difficulty }
  (summary, reviews, updated)

/-- Review of a finished session (`PracticeService.get_session_review`):
refuses a session still in progress, and otherwise re-runs
`end_session` with `abandoned = False` to rebuild the review. -/
def getSessionReview (sess : Session) (rows : List SessionRow) (now : Int) :
    Option (SessionSummary × List QuestionReview × Session) :=
  if sess.status = SessionStatus.in_progress then none
  else some (endSession sess rows false now)

/-- One step of a stable minimum-by-`question_order` scan. -/
def minOrderStep (acc : Option SessionRow) (r : SessionRow) : Option SessionRow :=
  match acc with
  | none => some r
  | some m => if r.question_order < m.question_order then some r else some m

/-- The lowest-order unanswered row, stably
(`is_("user_answer", "null").order("question_order").limit(1)`). -/
def nextUnanswered (rows : List SessionRow) : Option SessionRow :=
  (rows.filter (fun r => r.user_answer == none)).foldl minOrderStep none

/-- The `SubmitAnswerResponse` model of `schemas/practice.py`. -/
structure SubmitResult where
  is_correct : Bool
  correct_answer : String
  explanation : String
  time_taken_seconds : Nat
  points_earned : Nat
  questions_answered : Nat
  questions_remaining : Int
  current_score : Nat
  current_accuracy : Rat
deriving Repr, DecidableEq

/-- Answer submission (`PracticeService.submit_answer`).  Returns `none`
(which the API layer maps to HTTP 404 NotFound) when the session is not
in progress or no pending question exists; otherwise records the answer
on the pending row, bumps the question's usage counters, updates the
concept score, and reports live progress.  `existingScore` is the
concept-score row the update query would find. -/
def submitAnswer (sess : Session) (rows : List SessionRow)
    (existingScore : Option ConceptScore) (answer : String)
    (time_taken_seconds : Nat) (now : Int) :
    Option (SubmitResult × List SessionRow × Question × ConceptScore) :=
  if sess.status ≠ SessionStatus.in_progress then none
  else
    match nextUnanswered rows with
    | none => none
    | some psq =>
        let q := psq.question
        let is_correct := answer == q.correct_answer
        let rows' := rows.map fun r =>
          if r.id = psq.id then
            { r with
              user_answer := some answer
              is_correct := some is_correct
              time_taken_seconds := some time_taken_seconds
              answered_at := some now }
          else r
        let q' := { q with
          times_used := q.times_used + 1
          times_correct := if is_correct then q.times_correct + 1 else q.times_correct }
        let score' := updateConceptScore existingScore sess.user_id q.subject
          q.topic q.subtopic q.difficulty is_correct time_taken_seconds now
        let answered := rows'.filter (fun r => r.user_answer != none)
        let answered_count := answered.length
        let correct_count := (answered.filter (fun r => r.is_correct == some true)).length
        let remaining : Int := (sess.question_count : Int) - (answered_count : Int)
        let accuracy : Rat :=
          if 0 < answered_count then (correct_count : Rat) / (answered_count : Rat) * 100
          else 0
        some
          ({ is_correct := is_correct
             correct_answer := q.correct_answer
             explanation := q.explanation
             time_taken_seconds := time_taken_seconds
             points_earned := if is_correct then 10 else 0
             questions_answered := answered_count
             questions_remaining := remaining
             current_score := correct_count
             current_accuracy := roundTo1 accuracy },
           rows', q', score')

/-! Spec-side formulas the claims compare the code against. -/

/-- Average mastery over the matched concept-score rows, as the spec and
the code both define it. -/
def avgMastery (scores : List Rat) : Rat := scores.sum / (scores.length : Rat)

/-- Easy-bucket percentage from the spec's table in section 4.3. -/
def bucketEasyPct (avg : Rat) : Nat :=
  if avg < 40 then 60 else if avg < 70 then 30 else 20

/-- Medium-bucket percentage from the spec's table in section 4.3. -/
def bucketMediumPct (avg : Rat) : Nat :=
  if avg < 40 then 40 else if avg < 70 then 50 else 40

/-- Hard-bucket percentage from the spec's table in section 4.3. -/
def bucketHardPct (avg : Rat) : Nat :=
  if avg < 40 then 0 else if avg < 70 then 20 else 40

/-- A session summary with its two clock-derived fields blanked, leaving
exactly the parts recomputed from the session and its persisted rows. -/
def summaryRowPart (s : SessionSummary) : SessionSummary :=
  { s with ended_at := 0, total_time_seconds := 0 }

/-! Concrete fixtures for the closed theorems below. -/

/-- An easy Algebra catalog question that originally came from the
generator (so it carries a content fingerprint). -/
def qE1 : Question :=
  { id := "e1", question := "genq", options := ["a", "b", "c", "d"]
    correct_answer := "a", explanation := "x1", subject := "Mathematics"
    topic := "Algebra", subtopic := none, difficulty := "easy"
    class_level := 10, times_used := 0, times_correct := 0
    external_id := some ("genq", ["a", "b", "c", "d"]) }

/-- A medium Algebra catalog question. -/
def qM1 : Question :=
  { id := "m1", question := "q-m1", options := ["a", "b", "c", "d"]
    correct_answer := "b", explanation := "x2", subject := "Mathematics"
    topic := "Algebra", subtopic := none, difficulty := "medium"
    class_level := 10, times_used := 0, times_correct := 0
    external_id := none }

/-- A second medium Algebra catalog question. -/
def qM2 : Question := { qM1 with id := "m2", question := "q-m2" }

/-- A third medium Algebra catalog question. -/
def qM3 : Question := { qM1 with id := "m3", question := "q-m3" }

/-- A small catalog: one easy and three medium Algebra questions. -/
def exDb4 : List Question := [qE1, qM1, qM2, qM3]

/-- A draft whose fingerprint (text and options) matches `qE1`. -/
def exDraftA : Draft :=
  { question := "genq", options := ["a", "b", "c", "d"]
    correct_answer := "a", explanation := "x1" }

/-- A draft whose fingerprint matches no fixture catalog row. -/
def exDraft2 : Draft :=
  { question := "other-q", options := ["p", "q", "r", "s"]
    correct_answer := "p", explanation := "y" }

/-- A Source Adapter that can generate exactly the draft whose fingerprint
matches `qE1`, and only for the medium bucket. -/
def exGen : String → Nat → List Draft :=
  fun d n => if d == "medium" then List.replicate n exDraftA else []

/-- The question list `start_session` would persist for a cold-start
5-question adaptive session against `exDb4` with `exGen` sourcing. -/
def exSelected : List Question :=
  (selectQuestionsForSession exDb4 [] 10 "Mathematics" (some "Algebra") none 5
    exGen (fun _ => true) (fun n => "g" ++ toString n)).1

/-- An in-progress two-question session fixture. -/
def exSession : Session :=
  { id := "s1", user_id := "u1", subject := "Mathematics"
    topic := some "Algebra", difficulty := none, class_level := 10
    question_count := 2, time_limit_seconds := none
    status := SessionStatus.in_progress, started_at := 0, ended_at := none
    total_questions := none, correct_answers := none, wrong_answers := none
    skipped := none, total_time_seconds := none, avg_time_per_question := none
    score_percentage := none }

/-- The same session fixture after it was ended as abandoned. -/
def exSessionAbandoned : Session :=
  { exSession with status := SessionStatus.abandoned }

/-- Two fully answered rows for `exSession`: one correct easy answer and
one wrong medium answer. -/
def exRows : List SessionRow :=
  [{ id := "1", question_order := 1, difficulty := "easy"
     user_answer := some "a", is_correct := some true
     time_taken_seconds := some 30, answered_at := some 10, question := qE1 },
   { id := "2", question_order := 2, difficulty := "medium"
     user_answer := some "c", is_correct := some false
     time_taken_seconds := some 40, answered_at := some 20, question := qM1 }]

/-- A concept-score row whose stored average time is zero — reachable,
since `SubmitAnswerRequest.time_taken_seconds` is validated with
`ge=0` and a first attempt taking 0 seconds stores `avg_time_seconds = 0`. -/
def exScoreZeroAvg : ConceptScore :=
  { user_id := "u1", subject := "Mathematics", topic := "Algebra"
    subtopic := none, total_attempts := 1, correct_attempts := 1
    current_streak := 1, best_streak := 1, easy_attempts := 1
    easy_correct := 1, medium_attempts := 0, medium_correct := 0
    hard_attempts := 0, hard_correct := 0, avg_time_seconds := 0
    last_practiced_at := 0 }

/-- A concept-score row with one prior attempt and a nonzero average. -/
def exScorePrior : ConceptScore := { exScoreZeroAvg with avg_time_seconds := 4 }

/-! Theorems: one per claim, with helper lemmas shared between them. -/

/-- C1: on every answered question the recomputed mastery_score equals
lifetime accuracy correct_attempts/total_attempts × 100, and
recommended_difficulty follows the thresholds — below 40 easy, from 40 up
to but excluding 70 medium, and from 70 on hard — agreeing with the
in-source onboarding helper. -/
theorem mastery_recompute_thresholds (c t : Nat) (h : 0 < t) :
    (recomputeMastery c t).1 = (c : Rat) / (t : Rat) * 100 ∧
    (recomputeMastery c t).2 = calculateRecommendedDifficulty ((c : Rat) / (t : Rat) * 100) ∧
    ((c : Rat) / (t : Rat) * 100 < 40 → (recomputeMastery c t).2 = "easy") ∧
    (40 ≤ (c : Rat) / (t : Rat) * 100 ∧ (c : Rat) / (t : Rat) * 100 < 70 →
      (recomputeMastery c t).2 = "medium") ∧
    (70 ≤ (c : Rat) / (t : Rat) * 100 → (recomputeMastery c t).2 = "hard") := by
  refine ⟨rfl, rfl, ?_, ?_, ?_⟩
  · intro hlt
    simp [recomputeMastery, calculateRecommendedDifficulty, hlt]
  · rintro ⟨h1, h2⟩
    have h1' : ¬ ((c : Rat) / (t : Rat) * 100 < 40) := not_lt.mpr h1
    simp [recomputeMastery, calculateRecommendedDifficulty, h1', h2]
  · intro h70
    have h1' : ¬ ((c : Rat) / (t : Rat) * 100 < 40) :=
      not_lt.mpr (le_trans (by norm_num) h70)
    have h2' : ¬ ((c : Rat) / (t : Rat) * 100 < 70) := not_lt.mpr h70
    simp [recomputeMastery, calculateRecommendedDifficulty, h1', h2']

/-- Witness for C1: accuracy exactly 40 percent (2 of 5) recommends
"medium" and exactly 70 percent (7 of 10) recommends "hard". -/
theorem mastery_recompute_thresholds_witness :
    (recomputeMastery 2 5).2 = "medium" ∧ (recomputeMastery 7 10).2 = "hard" := by
  constructor
  · exact (mastery_recompute_thresholds 2 5 (by norm_num)).2.2.2.1 (by norm_num)
  · exact (mastery_recompute_thresholds 7 10 (by norm_num)).2.2.2.2 (by norm_num)

/-- C3 (code bug, evaluated at the failing input): on a session whose
terminal status is `abandoned`, `get_session_review` re-runs
`end_session` with `abandoned = False` and thereby rewrites the status to
`completed` — a terminal status changes again, violating the claimed
invariant. -/
theorem review_reopens_abandoned_session :
    exSessionAbandoned.status = SessionStatus.abandoned ∧
    SessionStatus.abandoned ≠ SessionStatus.completed ∧
    (getSessionReview exSessionAbandoned exRows 300).map (fun out => out.2.2.status)
      = some SessionStatus.completed := by
  refine ⟨rfl, by decide, ?_⟩
  rfl

/-- C5 counterexample: a cold start with count = 7 yields 3 easy
questions, not ceil(7/2) = 4 as the claim states. -/
theorem cold_start_not_ceil :
    (adaptiveDistribution [] 7).count "easy" = 3 ∧ (3 : Nat) ≠ (7 + 1) / 2 := by
  decide

/-- C5 (amended): a cold start yields floor(count/2) easy questions and
the remainder medium with zero hard; in particular count = 10 gives
5 easy, 5 medium, 0 hard. -/
theorem cold_start_floor_split :
    (∀ count : Nat,
      (adaptiveDistribution [] count).count "easy" = count / 2 ∧
      (adaptiveDistribution [] count).count "medium" = count - count / 2 ∧
      (adaptiveDistribution [] count).count "hard" = 0 ∧
      (adaptiveDistribution [] count).length = count) ∧
    ((adaptiveDistribution [] 10).count "easy" = 5 ∧
      (adaptiveDistribution [] 10).count "medium" = 5 ∧
      (adaptiveDistribution [] 10).count "hard" = 0) := by
  refine ⟨fun count => ?_, by decide⟩
  simp only [adaptiveDistribution, if_pos rfl]
  refine ⟨?_, ?_, ?_, ?_⟩ <;>
    simp [List.count_append, List.count_replicate] <;>
    omega

/-- C7 counterexample: with a stored average time of 0 — reachable, since
a first attempt may record `time_taken_seconds = 0` — the next update
stores `time_taken` itself (10), not the incremental mean (5). -/
theorem avg_time_zero_not_mean :
    (updateConceptScore (some exScoreZeroAvg) "u1" "Mathematics" "Algebra" none
        "easy" true 10 0).avg_time_seconds = 10 ∧
    (exScoreZeroAvg.avg_time_seconds * (exScoreZeroAvg.total_attempts : Rat) + 10)
        / ((exScoreZeroAvg.total_attempts : Rat) + 1) = 5 ∧
    (10 : Rat) ≠ 5 := by
  refine ⟨?_, by norm_num [exScoreZeroAvg], by norm_num⟩
  norm_num [updateConceptScore, exScoreZeroAvg]

/-- C7 (amended): whenever the stored `avg_time_seconds` is nonzero (the
Python truthiness guard), the update is the exact incremental mean with
the pre-increment total as weight. -/
theorem avg_time_incremental_mean (score : ConceptScore) (u s t : String)
    (st : Option String) (d : String) (c : Bool) (tt : Nat) (now : Int)
    (h : score.avg_time_seconds ≠ 0) :
    (updateConceptScore (some score) u s t st d c tt now).avg_time_seconds
      = (score.avg_time_seconds * (score.total_attempts : Rat) + (tt : Rat))
          / ((score.total_attempts : Rat) + 1) := by
  simp [updateConceptScore, h]

/-- Witness for C7: a prior average of 4 over one attempt followed by a
10-second answer gives the incremental mean (4·1 + 10)/2 = 7. -/
theorem avg_time_incremental_mean_witness :
    (updateConceptScore (some exScorePrior) "u1" "Mathematics" "Algebra" none
        "easy" true 10 0).avg_time_seconds = 7 := by
  have h := avg_time_incremental_mean exScorePrior "u1" "Mathematics" "Algebra"
    none "easy" true 10 0 (by norm_num [exScorePrior, exScoreZeroAvg])
  rw [h]
  norm_num [exScorePrior, exScoreZeroAvg]

/-- C10: the streak fields — a wrong answer always resets current_streak
to 0, best_streak never decreases on an update, and the concrete
correct-then-incorrect trace on one topic ends with total_attempts = 2,
correct_attempts = 1, current_streak = 0, best_streak = 1. -/
theorem streak_reset_and_best_monotone :
    (∀ (existing : Option ConceptScore) (u s t : String) (st : Option String)
        (d : String) (tt : Nat) (now : Int),
      (updateConceptScore existing u s t st d false tt now).current_streak = 0) ∧
    (∀ (score : ConceptScore) (u s t : String) (st : Option String) (d : String)
        (c : Bool) (tt : Nat) (now : Int),
      score.best_streak ≤ (updateConceptScore (some score) u s t st d c tt now).best_streak) ∧
    ((updateConceptScore
        (some (updateConceptScore none "u1" "Mathematics" "Algebra" none "medium" true 10 0))
        "u1" "Mathematics" "Algebra" none "medium" false 12 1).total_attempts = 2 ∧
      (updateConceptScore
        (some (updateConceptScore none "u1" "Mathematics" "Algebra" none "medium" true 10 0))
        "u1" "Mathematics" "Algebra" none "medium" false 12 1).correct_attempts = 1 ∧
      (updateConceptScore
        (some (updateConceptScore none "u1" "Mathematics" "Algebra" none "medium" true 10 0))
        "u1" "Mathematics" "Algebra" none "medium" false 12 1).current_streak = 0 ∧
      (updateConceptScore
        (some (updateConceptScore none "u1" "Mathematics" "Algebra" none "medium" true 10 0))
        "u1" "Mathematics" "Algebra" none "medium" false 12 1).best_streak = 1) := by
  refine ⟨?_, ?_, by decide⟩
  · intro existing u s t st d tt now
    cases existing <;> simp [updateConceptScore]
  · intro score u s t st d c tt now
    simp only [updateConceptScore]
    split
    · next hcond => exact Nat.le_of_lt hcond.2
    · exact Nat.le_refl _

/-- C2 (amended): end_session recomputes everything from the persisted
rows, so two calls with the same arguments agree on every summary field
and every review entry except the clock-derived `ended_at` and
`total_time_seconds`, and coincide entirely when made at the same
instant. -/
theorem end_session_recomputed_from_rows (sess : Session) (rows : List SessionRow)
    (abandoned : Bool) (t1 t2 : Int) :
    summaryRowPart (endSession sess rows abandoned t1).1
      = summaryRowPart (endSession sess rows abandoned t2).1 ∧
    (endSession sess rows abandoned t1).2.1 = (endSession sess rows abandoned t2).2.1 ∧
    (t1 = t2 → endSession sess rows abandoned t1 = endSession sess rows abandoned t2) := by
  exact ⟨rfl, rfl, fun h => by rw [h]⟩

/-- Witness for C2: the two calls coincide when made at the same instant. -/
theorem end_session_recomputed_from_rows_witness :
    endSession exSession exRows false 5 = endSession exSession exRows false 5 :=
  (end_session_recomputed_from_rows exSession exRows false 5 5).2.2 rfl

/-- C2 counterexample: two end_session calls at different instants return
different summaries (the `ended_at` timestamps are 100 and 200), so the
claim that all fields including timestamps coincide fails. -/
theorem end_session_twice_summaries_differ :
    (endSession exSession exRows false 100).1 ≠ (endSession exSession exRows false 200).1 := by
  intro h
  have e1 : (endSession exSession exRows false 100).1.ended_at = 100 := rfl
  have e2 : (endSession exSession exRows false 200).1.ended_at = 200 := rfl
  rw [h, e2] at e1
  exact absurd e1 (by decide)

/-- Count of each difficulty over a two-block replicate list. -/
theorem count_easy_medium (e m : Nat) :
    (List.replicate e "easy" ++ List.replicate m "medium").count "easy" = e ∧
    (List.replicate e "easy" ++ List.replicate m "medium").count "medium" = m ∧
    (List.replicate e "easy" ++ List.replicate m "medium").count "hard" = 0 := by
  refine ⟨?_, ?_, ?_⟩ <;> simp [List.count_append, List.count_replicate]

/-- Count of each difficulty over a three-block replicate list. -/
theorem count_easy_medium_hard (e m hn : Nat) :
    (List.replicate e "easy" ++ List.replicate m "medium"
        ++ List.replicate hn "hard").count "easy" = e ∧
    (List.replicate e "easy" ++ List.replicate m "medium"
        ++ List.replicate hn "hard").count "medium" = m ∧
    (List.replicate e "easy" ++ List.replicate m "medium"
        ++ List.replicate hn "hard").count "hard" = hn := by
  refine ⟨?_, ?_, ?_⟩ <;> simp [List.count_append, List.count_replicate]

/-- C6: with existing concept-score rows, the selector's counts follow the
spec's bucket percentages with truncation, the rounding shortfall is
absorbed into the medium bucket, and the three counts always sum to
exactly `count` (which is also the length of the slot list). -/
theorem adaptive_distribution_buckets (scores : List Rat) (count : Nat)
    (h : scores ≠ []) :
    (adaptiveDistribution scores count).count "easy"
        = count * bucketEasyPct (avgMastery scores) / 100 ∧
    (adaptiveDistribution scores count).count "hard"
        = count * bucketHardPct (avgMastery scores) / 100 ∧
    (adaptiveDistribution scores count).count "medium"
        = count * bucketMediumPct (avgMastery scores) / 100
          + (count - count * bucketEasyPct (avgMastery scores) / 100
              - count * bucketMediumPct (avgMastery scores) / 100
              - count * bucketHardPct (avgMastery scores) / 100) ∧
    (adaptiveDistribution scores count).count "easy"
        + (adaptiveDistribution scores count).count "medium"
        + (adaptiveDistribution scores count).count "hard" = count ∧
    (adaptiveDistribution scores count).length = count := by
  have havg : avgMastery scores = scores.sum / (scores.length : Rat) := rfl
  by_cases h40 : avgMastery scores < 40
  · have h40' : scores.sum / (scores.length : Rat) < 40 := by rwa [havg] at h40
    have hd : adaptiveDistribution scores count
        = List.replicate (count * 6 / 10) "easy"
          ++ List.replicate (count - count * 6 / 10) "medium" := by
      simp only [adaptiveDistribution, if_neg h, if_pos h40']
    have hc := count_easy_medium (count * 6 / 10) (count - count * 6 / 10)
    have he : bucketEasyPct (avgMastery scores) = 60 := by simp [bucketEasyPct, h40]
    have hm : bucketMediumPct (avgMastery scores) = 40 := by simp [bucketMediumPct, h40]
    have hh : bucketHardPct (avgMastery scores) = 0 := by simp [bucketHardPct, h40]
    rw [hd, he, hm, hh]
    refine ⟨?_, ?_, ?_, ?_, ?_⟩
    · rw [hc.1]; omega
    · rw [hc.2.2]; omega
    · rw [hc.2.1]; omega
    · rw [hc.1, hc.2.1, hc.2.2]; omega
    · simp only [List.length_append, List.length_replicate]; omega
  · by_cases h70 : avgMastery scores < 70
    · have h40' : ¬ scores.sum / (scores.length : Rat) < 40 := by rwa [havg] at h40
      have h70' : scores.sum / (scores.length : Rat) < 70 := by rwa [havg] at h70
      have hd : adaptiveDistribution scores count
          = List.replicate (count * 3 / 10) "easy"
            ++ List.replicate (count - count * 3 / 10 - count * 2 / 10) "medium"
            ++ List.replicate (count * 2 / 10) "hard" := by
        simp only [adaptiveDistribution, if_neg h, if_neg h40', if_pos h70']
      have hc := count_easy_medium_hard (count * 3 / 10)
        (count - count * 3 / 10 - count * 2 / 10) (count * 2 / 10)
      have he : bucketEasyPct (avgMastery scores) = 30 := by
        simp [bucketEasyPct, h40, h70]
      have hm : bucketMediumPct (avgMastery scores) = 50 := by
        simp [bucketMediumPct, h40, h70]
      have hh : bucketHardPct (avgMastery scores) = 20 := by
        simp [bucketHardPct, h40, h70]
      rw [hd, he, hm, hh]
      refine ⟨?_, ?_, ?_, ?_, ?_⟩
      · rw [hc.1]; omega
      · rw [hc.2.2]; omega
      · rw [hc.2.1]
        have e1 : count * 30 / 100 = count * 3 / 10 := by omega
        have e2 : count * 20 / 100 = count * 2 / 10 := by omega
        have e3 : count * 50 / 100 = count * 5 / 10 := by omega
        rw [e1, e2, e3]; omega
      · rw [hc.1, hc.2.1, hc.2.2]; omega
      · simp only [List.length_append, List.length_replicate]; omega
    · have h40' : ¬ scores.sum / (scores.length : Rat) < 40 := by rwa [havg] at h40
      have h70' : ¬ scores.sum / (scores.length : Rat) < 70 := by rwa [havg] at h70
      have hd : adaptiveDistribution scores count
          = List.replicate (count * 2 / 10) "easy"
            ++ List.replicate (count - count * 2 / 10 - count * 4 / 10) "medium"
            ++ List.replicate (count * 4 / 10) "hard" := by
        simp only [adaptiveDistribution, if_neg h, if_neg h40', if_neg h70']
      have hc := count_easy_medium_hard (count * 2 / 10)
        (count - count * 2 / 10 - count * 4 / 10) (count * 4 / 10)
      have he : bucketEasyPct (avgMastery scores) = 20 := by
        simp [bucketEasyPct, h40, h70]
      have hm : bucketMediumPct (avgMastery scores) = 40 := by
        simp [bucketMediumPct, h40, h70]
      have hh : bucketHardPct (avgMastery scores) = 40 := by
        simp [bucketHardPct, h40, h70]
      rw [hd, he, hm, hh]
      refine ⟨?_, ?_, ?_, ?_, ?_⟩
      · rw [hc.1]; omega
      · rw [hc.2.2]; omega
      · rw [hc.2.1]
        have e1 : count * 40 / 100 = count * 4 / 10 := by omega
        have e2 : count * 20 / 100 = count * 2 / 10 := by omega
        rw [e1, e2]; omega
      · rw [hc.1, hc.2.1, hc.2.2]; omega
      · simp only [List.length_append, List.length_replicate]; omega

/-- Witness for C6: count = 7 with a single mastery score of 55 gives 2
easy, 4 medium, 1 hard — the spec's worked example. -/
theorem adaptive_distribution_buckets_witness :
    ([(55 : Rat)] ≠ ([] : List Rat)) ∧
    (adaptiveDistribution [(55 : Rat)] 7).count "easy" = 2 ∧
    (adaptiveDistribution [(55 : Rat)] 7).count "medium" = 4 ∧
    (adaptiveDistribution [(55 : Rat)] 7).count "hard" = 1 := by
  have h : ([(55 : Rat)] ≠ ([] : List Rat)) := by simp
  have hb := adaptive_distribution_buckets [(55 : Rat)] 7 h
  have he : bucketEasyPct (avgMastery [(55 : Rat)]) = 30 := by
    norm_num [bucketEasyPct, avgMastery]
  have hm : bucketMediumPct (avgMastery [(55 : Rat)]) = 50 := by
    norm_num [bucketMediumPct, avgMastery]
  have hh : bucketHardPct (avgMastery [(55 : Rat)]) = 20 := by
    norm_num [bucketHardPct, avgMastery]
  refine ⟨h, ?_, ?_, ?_⟩
  · rw [hb.1, he]
  · rw [hb.2.2.1, he, hm, hh]
  · rw [hb.2.1, hh]

/-- A successful least-used choice is a member of the candidate list. -/
theorem leastUsed_mem (l : List Question) (q : Question)
    (h : leastUsed l = some q) : q ∈ l := by
  induction l with
  | nil => simp [leastUsed] at h
  | cons x xs ih =>
      rw [leastUsed] at h
      cases hxs : leastUsed xs with
      | none =>
          rw [hxs] at h
          simp only [Option.some.injEq] at h
          subst h
          exact List.mem_cons_self _ _
      | some m =>
          rw [hxs] at h
          by_cases hlt : m.times_used < x.times_used
          · simp only [hlt, if_true] at h
            simp only [Option.some.injEq] at h
            subst h
            exact List.mem_cons_of_mem _ (ih hxs)
          · simp only [hlt, if_false] at h
            simp only [Option.some.injEq] at h
            subst h
            exact List.mem_cons_self _ _

/-- A catalog lookup never returns a question whose id it was told to
exclude. -/
theorem getCachedQuestion_not_excluded (db : List Question) (cl : Nat)
    (s : String) (t : Option String) (d : String) (excl : List String)
    (q : Question) (h : getCachedQuestion db cl s t d excl = some q) :
    q.id ∉ excl := by
  have hm : q ∈ db.filter fun qq =>
      qq.class_level == cl && qq.subject == s && qq.difficulty == d
        && (match t with | some tv => qq.topic == tv | none => true)
        && !(excl.contains qq.id) := leastUsed_mem _ _ h
  have hp := (List.mem_filter.mp hm).2
  simp only [Bool.and_eq_true, Bool.not_eq_true'] at hp
  simpa using hp.2

/-- The cached phase preserves distinctness of the picked ids, because
each lookup excludes everything already picked. -/
theorem cachedPhase_nodup (db : List Question) (cl : Nat) (s : String)
    (t : Option String) (diffs : List String) (acc : List Question)
    (hacc : (acc.map (·.id)).Nodup) :
    ((cachedPhase db cl s t diffs acc).map (·.id)).Nodup := by
  induction diffs generalizing acc with
  | nil => simpa [cachedPhase] using hacc
  | cons diff rest ih =>
      rw [cachedPhase]
      cases hq : getCachedQuestion db cl s t diff (acc.map (·.id)) with
      | none => exact ih acc hacc
      | some q =>
          apply ih
          have hnotin : q.id ∉ acc.map (·.id) :=
            getCachedQuestion_not_excluded _ _ _ _ _ _ _ hq
          rw [List.map_append]
          simp [List.nodup_append, hacc, hnotin]

/-- C4 (amended): the per-slot catalog lookups are sound — a lookup never
returns an excluded id, so the cache-selected questions of a session are
pairwise distinct — and the final selection never exceeds the requested
count.  (The generation phase, by contrast, works from the last
`remaining` entries of the slot list and can re-fetch an already selected
question by fingerprint, as the counterexample shows.) -/
theorem select_questions_cached_sound :
    (∀ (db : List Question) (cl : Nat) (s : String) (t : Option String)
        (d : String) (excl : List String) (q : Question),
      getCachedQuestion db cl s t d excl = some q → q.id ∉ excl) ∧
    (∀ (db : List Question) (cl : Nat) (s : String) (t : Option String)
        (diffs : List String),
      ((cachedPhase db cl s t diffs []).map (·.id)).Nodup) ∧
    (∀ (db : List Question) (scores : List Rat) (cl : Nat) (s : String)
        (t : Option String) (d : Option String) (count : Nat)
        (gen : String → Nat → List Draft) (insertOk : Nat → Bool)
        (freshId : Nat → String),
      (selectQuestionsForSession db scores cl s t d count gen insertOk freshId).1.length
        ≤ count) := by
  refine ⟨getCachedQuestion_not_excluded, ?_, ?_⟩
  · intro db cl s t diffs
    exact cachedPhase_nodup db cl s t diffs [] (by simp)
  · intro db scores cl s t d count gen insertOk freshId
    simp only [selectQuestionsForSession]
    split <;> simp only [List.length_take] <;> omega

/-- Witness for C4: a concrete lookup that succeeds while honouring its
exclusion list. -/
theorem select_questions_cached_sound_witness :
    getCachedQuestion exDb4 10 "Mathematics" (some "Algebra") "easy" ["zz"]
      = some qE1 ∧
    qE1.id ∉ (["zz"] : List String) :=
  ⟨by decide,
    select_questions_cached_sound.1 exDb4 10 "Mathematics" (some "Algebra")
      "easy" ["zz"] qE1 (by decide)⟩

/-- C4 counterexample: a cold-start 5-question session against `exDb4`
misses its second easy slot, so the later cache hits shift forward and
the generation phase works from the tail of the slot list; the generated
draft's fingerprint then re-fetches the already selected `qE1`.  The
persisted rows repeat a question id, and their difficulties
`[easy, medium, medium, medium, easy]` are not the slot list
`[easy, easy, medium, medium, medium]` (nor a truncation of it). -/
theorem select_questions_slot_mismatch :
    ¬ (((sessionRowsFor exSelected).map (fun r => r.question.id)).Nodup) ∧
    ((sessionRowsFor exSelected).map (·.difficulty))
      ≠ (adaptiveDistribution [] 5).take (sessionRowsFor exSelected).length := by
  decide

/-- C8 (amended): the fingerprint path of Catalog insert is idempotent —
a draft whose fingerprint already exists returns that pre-existing row
unchanged and leaves the catalog untouched; a fresh insert creates the
row with zero usage counters; and a failing insert is swallowed, but the
call then returns the draft under a freshly generated id and leaves the
catalog unchanged instead of re-reading the pre-existing row. -/
theorem catalog_insert_idempotent_shape :
    (∀ (db : List Question) (cl : Nat) (s t d : String) (dr : Draft)
        (insertOk : Nat → Bool) (freshId : Nat → String) (n : Nat) (q0 : Question),
      db.find? (fun q => q.external_id == some (dr.question, dr.options)) = some q0 →
        (generateAndCache db cl s t d [dr] insertOk freshId n).1 = [q0] ∧
        (generateAndCache db cl s t d [dr] insertOk freshId n).2.1 = db ∧
        q0 ∈ db) ∧
    (∀ (db : List Question) (cl : Nat) (s t d : String) (dr : Draft)
        (insertOk : Nat → Bool) (freshId : Nat → String) (n : Nat),
      db.find? (fun q => q.external_id == some (dr.question, dr.options)) = none →
        ∀ q ∈ (generateAndCache db cl s t d [dr] insertOk freshId n).1,
          q.times_used = 0 ∧ q.times_correct = 0) ∧
    (∀ (db : List Question) (cl : Nat) (s t d : String) (dr : Draft)
        (freshId : Nat → String) (n : Nat),
      db.find? (fun q => q.external_id == some (dr.question, dr.options)) = none →
        (generateAndCache db cl s t d [dr] (fun _ => false) freshId n).2.1 = db ∧
        ((generateAndCache db cl s t d [dr] (fun _ => false) freshId n).1.map (·.id))
          = [freshId n]) := by
  refine ⟨?_, ?_, ?_⟩
  · intro db cl s t d dr insertOk freshId n q0 hfind
    refine ⟨?_, ?_, List.mem_of_find?_eq_some hfind⟩ <;>
      simp [generateAndCache, hfind]
  · intro db cl s t d dr insertOk freshId n hfind q hq
    simp only [generateAndCache, hfind] at hq
    split at hq <;> simp only [List.mem_singleton] at hq <;> subst hq <;> exact ⟨rfl, rfl⟩
  · intro db cl s t d dr freshId n hfind
    constructor <;> simp [generateAndCache, hfind]

/-- Witness for C8: inserting a draft whose fingerprint matches `qE1`
returns `qE1` itself and leaves the one-row catalog unchanged. -/
theorem catalog_insert_idempotent_shape_witness :
    (generateAndCache [qE1] 10 "Mathematics" "Algebra" "medium" [exDraftA]
        (fun _ => true) (fun _ => "u0") 0).1 = [qE1] ∧
    (generateAndCache [qE1] 10 "Mathematics" "Algebra" "medium" [exDraftA]
        (fun _ => true) (fun _ => "u0") 0).2.1 = [qE1] ∧
    qE1 ∈ ([qE1] : List Question) :=
  catalog_insert_idempotent_shape.1 [qE1] 10 "Mathematics" "Algebra" "medium"
    exDraftA (fun _ => true) (fun _ => "u0") 0 qE1 (by decide)

/-- C8 counterexample: when the insert of a fresh draft fails (the
cache-insert race), the call does not return any pre-existing catalog
row — it returns the draft under the freshly generated id `"u0"`, which
no catalog row carries, and the catalog is left unchanged rather than
re-read. -/
theorem insert_failure_returns_fresh_draft :
    ((generateAndCache [qM1] 10 "Mathematics" "Algebra" "medium" [exDraft2]
        (fun _ => false) (fun _ => "u0") 0).1.map (·.id) = ["u0"]) ∧
    (∀ q ∈ ([qM1] : List Question), q.id ≠ "u0") ∧
    ((generateAndCache [qM1] 10 "Mathematics" "Algebra" "medium" [exDraft2]
        (fun _ => false) (fun _ => "u0") 0).2.1 = [qM1]) := by
  refine ⟨by decide, by decide, by decide⟩

/-- A stable minimum scan that lands on `some q` found `q` in the list,
unless it was already the accumulator. -/
theorem foldl_minOrderStep_mem (l : List SessionRow) (acc : Option SessionRow)
    (q : SessionRow) (h : l.foldl minOrderStep acc = some q) :
    q ∈ l ∨ acc = some q := by
  induction l generalizing acc with
  | nil => right; simpa using h
  | cons x xs ih =>
      rw [List.foldl_cons] at h
      rcases ih (minOrderStep acc x) h with hq | hacc
      · left; exact List.mem_cons_of_mem _ hq
      · cases acc with
        | none =>
            left
            simp only [minOrderStep, Option.some.injEq] at hacc
            subst hacc
            exact List.mem_cons_self _ _
        | some m =>
            rw [minOrderStep] at hacc
            by_cases hlt : x.question_order < m.question_order
            · rw [if_pos hlt] at hacc
              simp only [Option.some.injEq] at hacc
              subst hacc
              left; exact List.mem_cons_self _ _
            · rw [if_neg hlt] at hacc
              right; exact hacc

/-- The pending question returned by `nextUnanswered` is one of the rows
and is unanswered. -/
theorem nextUnanswered_spec (rows : List SessionRow) (q : SessionRow)
    (h : nextUnanswered rows = some q) : q ∈ rows ∧ q.user_answer = none := by
  rcases foldl_minOrderStep_mem _ none q h with hq | habs
  · have hm := List.mem_filter.mp hq
    refine ⟨hm.1, ?_⟩
    simpa using hm.2
  · simp at habs

/-- C9: submit is write-once — when every row is already answered, submit
returns none (HTTP 404) and no row is touched; and in general a submit
never modifies an already-answered row (row ids are primary keys, hence
pairwise distinct). -/
theorem submit_answer_write_once (sess : Session) (rows : List SessionRow)
    (sc : Option ConceptScore) (a : String) (tt : Nat) (now : Int) :
    ((∀ r ∈ rows, r.user_answer ≠ none) →
      submitAnswer sess rows sc a tt now = none) ∧
    ((rows.map (·.id)).Nodup →
      ∀ out, submitAnswer sess rows sc a tt now = some out →
        ∀ r ∈ rows, r.user_answer ≠ none → r ∈ out.2.1) := by
  constructor
  · intro hall
    have hfil : rows.filter (fun r => r.user_answer == none) = [] := by
      rw [List.filter_eq_nil_iff]
      intro r hr
      simpa using hall r hr
    have hnu : nextUnanswered rows = none := by
      rw [nextUnanswered, hfil]; rfl
    simp [submitAnswer, hnu]
  · intro hnodup out hout r hr hra
    by_cases hs : sess.status = SessionStatus.in_progress
    · cases hnu : nextUnanswered rows with
      | none => simp [submitAnswer, hs, hnu] at hout
      | some psq =>
          have hspec := nextUnanswered_spec rows psq hnu
          have hproj : (submitAnswer sess rows sc a tt now).map (fun o => o.2.1)
              = some (rows.map fun rr =>
                  if rr.id = psq.id then
                    { rr with
                      user_answer := some a
                      is_correct := some (a == psq.question.correct_answer)
                      time_taken_seconds := some tt
                      answered_at := some now }
                  else rr) := by
            simp [submitAnswer, hs, hnu]
          rw [hout] at hproj
          simp only [Option.map_some', Option.some.injEq] at hproj
          have hne : r.id ≠ psq.id := by
            intro heq
            have hrp : r = psq := List.inj_on_of_nodup_map hnodup hr hspec.1 heq
            rw [hrp, hspec.2] at hra
            exact hra rfl
          rw [hproj]
          exact List.mem_map.mpr ⟨r, hr, by simp [hne]⟩
    · have hnone : submitAnswer sess rows sc a tt now = none := by
        simp [submitAnswer, hs]
      simp [hnone] at hout

/-- Witness for C9: a second submit against the fully answered fixture
session returns none. -/
theorem submit_answer_write_once_witness :
    submitAnswer exSession exRows none "a" 5 50 = none :=
  (submit_answer_write_once exSession exRows none "a" 5 50).1 (by decide)

end Prepverse
